import Mathlib

/-!
Verification of the SOC agent system's analysis orchestration and
distribution engine.  The definitions below shallowly embed the Python
sources (`backend/src`): the false-positive analyzer, the response action
engine, the timeline builder, the coordinator's result aggregation and
review synthesis, and the in-memory store.  Machine floats are modelled
as exact rationals; Python dict literals keyed by enums become
association lists read through `List.lookup`/`Option.getD`, mirroring
`dict.get`.
-/

namespace SocAgent

/-- Types of security threats (`models.ThreatType`). -/
inductive ThreatType where
  | BOT_TRAFFIC
  | PROXY_NETWORK
  | DEVICE_COMPROMISE
  | ANOMALY_DETECTION
  | RATE_LIMIT_BREACH
  | GEO_ANOMALY
  deriving DecidableEq, Repr

instance : BEq ThreatType := ⟨fun a b => decide (a = b)⟩

instance : LawfulBEq ThreatType where
  eq_of_beq h := of_decide_eq_true h
  rfl := by intro a; simp [BEq.beq]

/-- Threat severity levels (`models.ThreatSeverity`). -/
inductive ThreatSeverity where
  | LOW
  | MEDIUM
  | HIGH
  | CRITICAL
  | INFO
  deriving DecidableEq, Repr

instance : BEq ThreatSeverity := ⟨fun a b => decide (a = b)⟩

instance : LawfulBEq ThreatSeverity where
  eq_of_beq h := of_decide_eq_true h
  rfl := by intro a; simp [BEq.beq]

/-- Status of threat analysis (`models.ThreatStatus`). -/
inductive ThreatStatus where
  | PENDING
  | ANALYZING
  | COMPLETED
  | ESCALATED
  | RESOLVED
  | FALSE_POSITIVE
  deriving DecidableEq, Repr

/-- Types of automated response actions (`models.ResponseActionType`). -/
inductive ResponseActionType where
  | BLOCK_IP
  | RATE_LIMIT
  | CHALLENGE
  | WHITELIST
  | MONITOR
  | ESCALATE
  | QUARANTINE
  | NONE
  deriving DecidableEq, Repr

/-- Urgency level for response actions (`models.ResponseUrgency`). -/
inductive ResponseUrgency where
  | IMMEDIATE
  | URGENT
  | NORMAL
  | LOW
  deriving DecidableEq, Repr

/-- Types of events in the investigation timeline (`models.TimelineEventType`). -/
inductive TimelineEventType where
  | DETECTION
  | ENRICHMENT
  | ANALYSIS
  | CORRELATION
  | DECISION
  | ACTION
  | ESCALATION
  deriving DecidableEq, Repr

/-- The enum's string value, as used by `.value` in the source. -/
def ThreatType.value : ThreatType → String
  | .BOT_TRAFFIC => "bot_traffic"
  | .PROXY_NETWORK => "proxy_network"
  | .DEVICE_COMPROMISE => "device_compromise"
  | .ANOMALY_DETECTION => "anomaly_detection"
  | .RATE_LIMIT_BREACH => "rate_limit_breach"
  | .GEO_ANOMALY => "geo_anomaly"

/-- The enum's string value for severities. -/
def ThreatSeverity.value : ThreatSeverity → String
  | .LOW => "LOW"
  | .MEDIUM => "MEDIUM"
  | .HIGH => "HIGH"
  | .CRITICAL => "CRITICAL"
  | .INFO => "INFO"

/-- The enum's string value for response action types. -/
def ResponseActionType.value : ResponseActionType → String
  | .BLOCK_IP => "block_ip"
  | .RATE_LIMIT => "rate_limit"
  | .CHALLENGE => "challenge"
  | .WHITELIST => "whitelist"
  | .MONITOR => "monitor"
  | .ESCALATE => "escalate"
  | .QUARANTINE => "quarantine"
  | .NONE => "none"

/-- The enum's string value for urgencies. -/
def ResponseUrgency.value : ResponseUrgency → String
  | .IMMEDIATE => "immediate"
  | .URGENT => "urgent"
  | .NORMAL => "normal"
  | .LOW => "low"

/-- The metadata bag of a threat signal, restricted to the keys the core
reads (`signal.metadata.get(...)` call sites).  A missing key is `none`. -/
structure Metadata where
  userAgent : Option String := none
  sourceIp : Option String := none
  requestCount : Option ℚ := none
  timeWindowMinutes : Option ℚ := none
  endpoint : Option String := none
  userId : Option String := none
  deriving DecidableEq, Repr

/-- Raw threat signal (`models.ThreatSignal`); timestamps are rational
milliseconds. -/
structure ThreatSignal where
  id : String
  threatType : ThreatType
  customerName : String
  timestamp : ℚ
  metadata : Metadata
  deriving DecidableEq, Repr

/-- Analysis result from a specialized agent (`models.AgentAnalysis`). -/
structure AgentAnalysis where
  agentName : String
  analysis : String
  confidence : ℚ
  keyFindings : List String := []
  recommendations : List String := []
  processingTimeMs : ℤ
  dataSourcesConsulted : List String := []
  deriving DecidableEq, Repr

/-- Individual indicator contributing to the FP score
(`models.FalsePositiveIndicator`). -/
structure FalsePositiveIndicator where
  indicator : String
  weight : ℚ
  description : String
  source : String
  deriving DecidableEq, Repr

/-- Comprehensive false positive analysis (`models.FalsePositiveScore`). -/
structure FalsePositiveScore where
  score : ℚ
  confidence : ℚ
  indicators : List FalsePositiveIndicator := []
  historicalFpRate : Option ℚ := none
  similarResolvedAsFp : ℕ := 0
  similarResolvedAsReal : ℕ := 0
  recommendation : String := ""
  explanation : String := ""
  deriving DecidableEq, Repr

/-- Historical incident for pattern matching (`models.HistoricalIncident`),
restricted to the fields the analyzers read. -/
structure HistoricalIncident where
  id : String
  customerName : String
  threatType : ThreatType
  severity : ThreatSeverity := .MEDIUM
  resolution : String := ""
  resolvedAs : String := "inconclusive"
  deriving DecidableEq, Repr

/-- Customer-specific configuration (`models.CustomerConfig`), restricted
to the fields the response engine reads. -/
structure CustomerConfig where
  customerName : String
  tier : String := "standard"
  autoBlockEnabled : Bool := false
  escalationContacts : List String := []
  deriving DecidableEq, Repr

/-- Lower-casing, modelling Python's `str.lower()` character-wise. -/
def strToLower (s : String) : String :=
  String.mk (s.data.map Char.toLower)

/-- Prefix test, modelling Python's `str.startswith(pre)`. -/
def strStartsWith (s pre : String) : Bool :=
  pre.data.isPrefixOf s.data

/-- Occurrence of `pat` as a contiguous run inside `l`. -/
def listContainsRun (pat : List Char) : List Char → Bool
  | [] => pat.isEmpty
  | c :: rest => pat.isPrefixOf (c :: rest) || listContainsRun pat rest

/-- Substring containment, modelling Python's `pat in s`. -/
def containsSubstr (s pat : String) : Bool :=
  listContainsRun pat.toList s.toList

/-- Fixed-point decimal formatting, modelling Python's format spec
`:.Nf` (the tie-breaking direction of the underlying float rounding is
immaterial to every claim). -/
def fmtFixed (decimals : ℕ) (q : ℚ) : String :=
  let scale : ℤ := (10 : ℤ) ^ decimals
  let n : ℤ := round (q * (scale : ℚ))
  if decimals = 0 then toString n
  else
    let frac := toString (n % scale).natAbs
    let pad := String.mk (List.replicate (decimals - frac.length) '0')
    toString (n / scale) ++ "." ++ pad ++ frac

/-- Percentage formatting, modelling Python's format spec `:.0%`. -/
def fmtPct0 (q : ℚ) : String :=
  toString (round (q * 100) : ℤ) ++ "%"

/-- Rounding to three decimals, modelling `round(x, 3)` in
`fp_analyzer._calculate_score` (every reachable value there is an exact
multiple of 1/1000, so the tie-breaking direction is immaterial). -/
def round3 (q : ℚ) : ℚ :=
  ((round (q * 1000) : ℤ) : ℚ) / 1000

/-- The spec's recommendation thresholds: a pure function of the score
alone (at least 0.7 benign, at least 0.4 review, otherwise malicious). -/
def recommendationFromScore (score : ℚ) : String :=
  if score ≥ 0.7 then "likely_false_positive"
  else if score ≥ 0.4 then "needs_review"
  else "likely_real_threat"

namespace FalsePositiveAnalyzer

/-- Historical FP rates by threat type
(`FalsePositiveAnalyzer.BASELINE_FP_RATES`). -/
def BASELINE_FP_RATES : List (ThreatType × ℚ) :=
  [(.BOT_TRAFFIC, 0.35),
   (.PROXY_NETWORK, 0.40),
   (.DEVICE_COMPROMISE, 0.10),
   (.ANOMALY_DETECTION, 0.50),
   (.RATE_LIMIT_BREACH, 0.45),
   (.GEO_ANOMALY, 0.55)]

/-- Known benign user-agent fragments
(`FalsePositiveAnalyzer.BENIGN_USER_AGENTS`). -/
def BENIGN_USER_AGENTS : List String :=
  ["googlebot", "bingbot", "slackbot", "facebookexternalhit",
   "twitterbot", "linkedinbot", "pingdom", "uptimerobot"]

/-- Known benign source-IP prefixes
(`FalsePositiveAnalyzer.BENIGN_IP_PATTERNS`). -/
def BENIGN_IP_PATTERNS : List String :=
  ["66.249.", "157.55.", "40.77."]

/-- Suspicious user-agent fragments checked by `_analyze_user_agent`. -/
def SUSPICIOUS_UA_PATTERNS : List String :=
  ["python-requests", "curl", "wget", "scanner"]

/-- Embedding of `FalsePositiveAnalyzer._analyze_user_agent`: first matching benign
crawler fragment wins with weight 0.4; otherwise the first suspicious
fragment gives weight -0.2; an absent or empty user agent yields nothing. -/
def analyzeUserAgent (signal : ThreatSignal) : Option FalsePositiveIndicator :=
  match signal.metadata.userAgent with
  | none => none
  | some ua =>
    if ua = "" then none
    else
      let uaLower := strToLower ua
      match BENIGN_USER_AGENTS.find? (fun b => containsSubstr uaLower b) with
      | some b =>
        some { indicator := "Known benign bot: " ++ b
               weight := 0.4
               description := "User agent matches known benign crawler: " ++ b
               source := "FP Analyzer - User Agent Check" }
      | none =>
        match SUSPICIOUS_UA_PATTERNS.find? (fun p => containsSubstr uaLower p) with
        | some p =>
          some { indicator := "Suspicious user agent: " ++ p
                 weight := -0.2
                 description := "User agent contains suspicious pattern: " ++ p
                 source := "FP Analyzer - User Agent Check" }
        | none => none

/-- Embedding of `FalsePositiveAnalyzer._analyze_ip`. -/
def analyzeIp (signal : ThreatSignal) : Option FalsePositiveIndicator :=
  let sourceIp := signal.metadata.sourceIp.getD "0.0.0.0"
  match BENIGN_IP_PATTERNS.find? (fun p => strStartsWith sourceIp p) with
  | some p =>
    some { indicator := "Known benign IP range: " ++ p ++ "*"
           weight := 0.5
           description := "IP belongs to known benign service provider"
           source := "FP Analyzer - IP Check" }
  | none => none

/-- Embedding of `FalsePositiveAnalyzer._analyze_request_volume`. -/
def analyzeRequestVolume (signal : ThreatSignal) : Option FalsePositiveIndicator :=
  let requestCount := signal.metadata.requestCount.getD 0
  let timeWindow := signal.metadata.timeWindowMinutes.getD 5
  let rpm := requestCount / max timeWindow 1
  if rpm < 10 then
    some { indicator := "Low request volume"
           weight := 0.2
           description := "Only " ++ fmtFixed 1 rpm ++ " requests/minute - may be normal traffic"
           source := "FP Analyzer - Volume Check" }
  else if rpm > 1000 then
    some { indicator := "Extremely high request volume"
           weight := -0.3
           description := fmtFixed 0 rpm ++ " requests/minute indicates automated attack"
           source := "FP Analyzer - Volume Check" }
  else none

/-- Embedding of `FalsePositiveAnalyzer._analyze_historical_patterns`. -/
def analyzeHistoricalPatterns (signal : ThreatSignal)
    (similarIncidents : List HistoricalIncident) : List FalsePositiveIndicator :=
  if similarIncidents = [] then []
  else
    let fpCount := (similarIncidents.filter (fun i => i.resolvedAs == "false_positive")).length
    let total := similarIncidents.length
    let rateIndicators :=
      if total > 0 then
        let fpRate : ℚ := (fpCount : ℚ) / (total : ℚ)
        if fpRate > 0.5 then
          [{ indicator := "High historical FP rate: " ++ fmtPct0 fpRate
             weight := 0.3
             description := toString fpCount ++ "/" ++ toString total ++
               " similar incidents were false positives"
             source := "FP Analyzer - Historical Analysis" }]
        else if fpRate < 0.2 then
          [{ indicator := "Low historical FP rate: " ++ fmtPct0 fpRate
             weight := -0.3
             description := "Only " ++ toString fpCount ++ "/" ++ toString total ++
               " similar incidents were false positives"
             source := "FP Analyzer - Historical Analysis" }]
        else []
      else []
    let customerIncidents := similarIncidents.filter
      (fun i => i.customerName == signal.customerName)
    let customerIndicators :=
      if customerIncidents.length ≥ 3 then
        let customerFp := (customerIncidents.filter
          (fun i => i.resolvedAs == "false_positive")).length
        if customerFp ≥ 2 then
          [{ indicator := "Recurring FP pattern for customer"
             weight := 0.25
             description := "Customer has " ++ toString customerFp ++
               " previous false positives"
             source := "FP Analyzer - Customer History" }]
        else []
      else []
    rateIndicators ++ customerIndicators

/-- Embedding of `FalsePositiveAnalyzer._analyze_agent_confidence` (every entry of the
result map is an `AgentAnalysis`, so every entry contributes its
confidence). -/
def analyzeAgentConfidence (agentAnalyses : List (String × AgentAnalysis)) :
    Option FalsePositiveIndicator :=
  if agentAnalyses = [] then none
  else
    let confidences := agentAnalyses.map (fun p => p.2.confidence)
    let avgConfidence := confidences.sum / (confidences.length : ℚ)
    if avgConfidence < 0.5 then
      some { indicator := "Low agent confidence"
             weight := 0.2
             description := "Average agent confidence is " ++ fmtPct0 avgConfidence
             source := "FP Analyzer - Agent Confidence" }
    else if avgConfidence > 0.85 then
      some { indicator := "High agent confidence"
             weight := -0.2
             description := "Average agent confidence is " ++ fmtPct0 avgConfidence
             source := "FP Analyzer - Agent Confidence" }
    else none

/-- Embedding of `FalsePositiveAnalyzer._check_benign_patterns`. -/
def checkBenignPatterns (signal : ThreatSignal) : Option FalsePositiveIndicator :=
  let endpoint := strToLower (signal.metadata.endpoint.getD "")
  if ["/health", "/ping", "/status", "/ready"].contains endpoint then
    some { indicator := "Health check endpoint"
           weight := 0.4
           description := "Traffic to health check endpoint is typically benign"
           source := "FP Analyzer - Endpoint Check" }
  else
    let sourceIp := signal.metadata.sourceIp.getD "0.0.0.0"
    if strStartsWith sourceIp "10." || strStartsWith sourceIp "192.168." then
      some { indicator := "Internal IP address"
             weight := 0.3
             description := "Traffic from internal network"
             source := "FP Analyzer - IP Check" }
    else none

/-- The indicator list assembled by `FalsePositiveAnalyzer.analyze`, in
source order. -/
def fpIndicators (signal : ThreatSignal)
    (agentAnalyses : List (String × AgentAnalysis))
    (similarIncidents : List HistoricalIncident) : List FalsePositiveIndicator :=
  (analyzeUserAgent signal).toList ++
  (analyzeIp signal).toList ++
  (analyzeRequestVolume signal).toList ++
  analyzeHistoricalPatterns signal similarIncidents ++
  (analyzeAgentConfidence agentAnalyses).toList ++
  (checkBenignPatterns signal).toList

/-- Embedding of `FalsePositiveAnalyzer._calculate_score`. -/
def calculateScore (signal : ThreatSignal)
    (indicators : List FalsePositiveIndicator)
    (similarIncidents : List HistoricalIncident) : FalsePositiveScore :=
  let baseline := (BASELINE_FP_RATES.lookup signal.threatType).getD 0.3
  let totalWeight := (indicators.map (fun i => i.weight)).sum
  let adjustedScore := baseline + totalWeight * 0.3
  let finalScore := max 0 (min 1 adjustedScore)
  let confidenceSim : ℚ :=
    if similarIncidents = [] then 0.5
    else 0.5 + min 0.3 ((similarIncidents.length : ℚ) * 0.05)
  let confidenceInd : ℚ :=
    if indicators = [] then confidenceSim
    else confidenceSim + min 0.2 ((indicators.length : ℚ) * 0.04)
  let confidence := min 1 confidenceInd
  let recommendation :=
    if finalScore ≥ 0.7 then "likely_false_positive"
    else if finalScore ≥ 0.4 then "needs_review"
    else "likely_real_threat"
  let explanation :=
    if finalScore ≥ 0.7 then
      "Multiple indicators suggest this is likely a false positive. Consider auto-dismissing or quick review."
    else if finalScore ≥ 0.4 then
      "Mixed signals - human review recommended to confirm threat status."
    else
      "Strong indicators of real threat. Prioritize investigation and response."
  { score := round3 finalScore
    confidence := round3 confidence
    indicators := indicators
    historicalFpRate := BASELINE_FP_RATES.lookup signal.threatType
    similarResolvedAsFp :=
      (similarIncidents.filter (fun i => i.resolvedAs == "false_positive")).length
    similarResolvedAsReal :=
      (similarIncidents.filter (fun i => i.resolvedAs == "true_positive")).length
    recommendation := recommendation
    explanation := explanation }

/-- Embedding of `FalsePositiveAnalyzer.analyze`: assemble the indicators and compute
the final score. -/
def analyze (signal : ThreatSignal)
    (agentAnalyses : List (String × AgentAnalysis))
    (similarIncidents : List HistoricalIncident) : FalsePositiveScore :=
  calculateScore signal (fpIndicators signal agentAnalyses similarIncidents)
    similarIncidents

end FalsePositiveAnalyzer

/-- A value in an action's parameter bag (`ResponseAction.parameters`
holds heterogeneous JSON-like values). -/
inductive PVal where
  | num (n : ℤ)
  | rat (q : ℚ)
  | str (s : String)
  | bool (b : Bool)
  | strList (l : List String)
  | null
  deriving DecidableEq, Repr

/-- A recommended response action (`models.ResponseAction`). -/
structure ResponseAction where
  actionType : ResponseActionType
  urgency : ResponseUrgency
  target : String
  reason : String
  confidence : ℚ
  autoExecutable : Bool := false
  requiresApproval : Bool := true
  estimatedImpact : String := ""
  rollbackPossible : Bool := true
  parameters : List (String × PVal) := []
  deriving DecidableEq, Repr

/-- Complete response plan (`models.ResponsePlan`). -/
structure ResponsePlan where
  primaryAction : ResponseAction
  secondaryActions : List ResponseAction := []
  escalationPath : List String := []
  slaMinutes : ℕ := 60
  autoEscalateAfterMinutes : ℕ := 30
  notes : String := ""
  deriving DecidableEq, Repr

namespace ResponseActionEngine

/-- Response templates by threat type and severity
(`ResponseActionEngine.RESPONSE_TEMPLATES`). -/
def RESPONSE_TEMPLATES :
    List (ThreatType × List (ThreatSeverity × List (ResponseActionType × ResponseUrgency))) :=
  [(.BOT_TRAFFIC,
    [(.CRITICAL, [(.BLOCK_IP, .IMMEDIATE), (.RATE_LIMIT, .IMMEDIATE)]),
     (.HIGH, [(.RATE_LIMIT, .URGENT), (.CHALLENGE, .URGENT)]),
     (.MEDIUM, [(.CHALLENGE, .NORMAL), (.MONITOR, .NORMAL)]),
     (.LOW, [(.MONITOR, .LOW)])]),
   (.PROXY_NETWORK,
    [(.CRITICAL, [(.BLOCK_IP, .IMMEDIATE), (.ESCALATE, .IMMEDIATE)]),
     (.HIGH, [(.BLOCK_IP, .URGENT), (.CHALLENGE, .URGENT)]),
     (.MEDIUM, [(.CHALLENGE, .NORMAL), (.RATE_LIMIT, .NORMAL)]),
     (.LOW, [(.MONITOR, .NORMAL)])]),
   (.DEVICE_COMPROMISE,
    [(.CRITICAL, [(.QUARANTINE, .IMMEDIATE), (.ESCALATE, .IMMEDIATE), (.BLOCK_IP, .IMMEDIATE)]),
     (.HIGH, [(.QUARANTINE, .URGENT), (.CHALLENGE, .URGENT)]),
     (.MEDIUM, [(.CHALLENGE, .NORMAL), (.MONITOR, .NORMAL)]),
     (.LOW, [(.MONITOR, .LOW)])]),
   (.RATE_LIMIT_BREACH,
    [(.CRITICAL, [(.RATE_LIMIT, .IMMEDIATE), (.BLOCK_IP, .URGENT)]),
     (.HIGH, [(.RATE_LIMIT, .URGENT)]),
     (.MEDIUM, [(.RATE_LIMIT, .NORMAL)]),
     (.LOW, [(.MONITOR, .LOW)])]),
   (.GEO_ANOMALY,
    [(.CRITICAL, [(.CHALLENGE, .IMMEDIATE), (.ESCALATE, .URGENT)]),
     (.HIGH, [(.CHALLENGE, .URGENT)]),
     (.MEDIUM, [(.CHALLENGE, .NORMAL)]),
     (.LOW, [(.MONITOR, .LOW)])])]

/-- SLA times by severity in minutes (`ResponseActionEngine.SLA_TIMES`). -/
def SLA_TIMES : List (ThreatSeverity × ℕ) :=
  [(.CRITICAL, 15), (.HIGH, 30), (.MEDIUM, 60), (.LOW, 240), (.INFO, 480)]

/-- The per-action-type configuration selected inside
`ResponseActionEngine._build_action` (`action_configs` plus its
default), as the tuple (reason, impact, params, auto_exec). -/
def actionConfig (actionType : ResponseActionType) (signal : ThreatSignal)
    (severity : ThreatSeverity) : String × String × List (String × PVal) × Bool :=
  match actionType with
  | .BLOCK_IP =>
    ("Block malicious IP due to " ++ signal.threatType.value,
     if severity = .CRITICAL ∨ severity = .HIGH then "High" else "Medium",
     [("duration_minutes", .num 60), ("scope", .str "customer")],
     false)
  | .RATE_LIMIT =>
    ("Apply rate limiting due to " ++ signal.threatType.value,
     "Medium",
     [("requests_per_minute", .num 10), ("duration_minutes", .num 30)],
     true)
  | .CHALLENGE =>
    ("Require CAPTCHA/challenge due to " ++ signal.threatType.value,
     "Low",
     [("challenge_type", .str "captcha"), ("duration_minutes", .num 60)],
     true)
  | .WHITELIST =>
    ("Add to whitelist - confirmed legitimate traffic",
     "Low",
     [("duration_minutes", .num 1440)],
     false)
  | .MONITOR =>
    ("Enhanced monitoring for " ++ signal.threatType.value,
     "Low",
     [("duration_minutes", .num 60), ("alert_threshold", .num 100)],
     true)
  | .ESCALATE =>
    ("Escalate " ++ severity.value ++ " " ++ signal.threatType.value ++ " for review",
     "Low",
     [("escalation_level", .str "Tier 2")],
     true)
  | .QUARANTINE =>
    ("Quarantine affected account due to " ++ signal.threatType.value,
     "High",
     [("notify_user", .bool true)],
     false)
  | .NONE =>
    ("Respond to " ++ signal.threatType.value, "Medium", [], false)

/-- Embedding of `ResponseActionEngine._build_action`. -/
def buildAction (actionType : ResponseActionType) (urgency : ResponseUrgency)
    (signal : ThreatSignal) (severity : ThreatSeverity) : ResponseAction :=
  let config := actionConfig actionType signal severity
  let sourceIp := signal.metadata.sourceIp.getD "0.0.0.0"
  let target :=
    if actionType = .BLOCK_IP ∨ actionType = .RATE_LIMIT ∨
       actionType = .CHALLENGE ∨ actionType = .MONITOR then sourceIp
    else if actionType = .QUARANTINE then
      signal.metadata.userId.getD signal.customerName
    else signal.customerName
  { actionType := actionType
    urgency := urgency
    target := target
    reason := config.1
    confidence := if severity = .CRITICAL ∨ severity = .HIGH then 0.8 else 0.6
    autoExecutable := config.2.2.2
    requiresApproval := !config.2.2.2
    estimatedImpact := config.2.1
    rollbackPossible := true
    parameters := config.2.2.1 }

/-- Embedding of `ResponseActionEngine._build_monitor_action`. -/
def buildMonitorAction (signal : ThreatSignal) : ResponseAction :=
  { actionType := .MONITOR
    urgency := .NORMAL
    target := signal.metadata.sourceIp.getD "0.0.0.0"
    reason := "Standard monitoring"
    confidence := 0.5
    autoExecutable := true
    requiresApproval := false
    estimatedImpact := "Low"
    rollbackPossible := true
    parameters := [("duration_minutes", .num 60)] }

/-- Embedding of `ResponseActionEngine._build_escalation_path`. -/
def buildEscalationPath (severity : ThreatSeverity)
    (customerConfig : Option CustomerConfig) : List String :=
  let basePath :=
    match severity with
    | .CRITICAL => ["SOC Tier 2", "SOC Manager", "CISO", "Customer Success"]
    | .HIGH => ["SOC Tier 2", "SOC Manager", "Customer Success"]
    | .MEDIUM => ["SOC Tier 1", "SOC Tier 2"]
    | .LOW => ["SOC Tier 1"]
    | .INFO => ["SOC Tier 1"]
  match customerConfig with
  | some config =>
    if config.escalationContacts ≠ [] then
      basePath ++ config.escalationContacts.take 2
    else basePath
  | none => basePath

/-- Title-casing of a word list, modelling Python's `str.title()` on a
`_`-joined enum value after `replace` turned `_` into spaces. -/
def titleWords (s : String) : String :=
  String.intercalate " " ((s.splitOn " ").map String.capitalize)

/-- Embedding of `ResponseActionEngine._generate_response_notes`. -/
def generateResponseNotes (signal : ThreatSignal) (severity : ThreatSeverity)
    (agentAnalyses : List (String × AgentAnalysis)) : String :=
  let base :=
    ["Threat: " ++ titleWords ((signal.threatType.value.replace "_" " ")),
     "Severity: " ++ severity.value.toUpper,
     "Customer: " ++ signal.customerName]
  let agentNotes := agentAnalyses.filterMap (fun p =>
    match p.2.keyFindings with
    | [] => none
    | f :: _ => some (titleWords p.1 ++ ": " ++ f))
  String.intercalate " | " (base ++ agentNotes)

/-- Embedding of `ResponseActionEngine._generate_fp_response_plan`: minimal response
plan for likely false positives. -/
def generateFpResponsePlan (signal : ThreatSignal)
    (fpScore : FalsePositiveScore) : ResponsePlan :=
  let sourceIp := signal.metadata.sourceIp.getD "0.0.0.0"
  { primaryAction :=
      { actionType := .MONITOR
        urgency := .LOW
        target := sourceIp
        reason := "Likely false positive (score: " ++ fmtFixed 2 fpScore.score ++ ")"
        confidence := fpScore.confidence
        autoExecutable := true
        requiresApproval := false
        estimatedImpact := "Low"
        rollbackPossible := true
        parameters := [("duration_minutes", .num 30)] }
    secondaryActions := []
    escalationPath := ["SOC Tier 1"]
    slaMinutes := 240
    autoEscalateAfterMinutes := 120
    notes := "High FP likelihood. " ++ fpScore.explanation }

/-- The non-short-circuited branch of
`ResponseActionEngine.generate_response_plan` (template lookup, action
building, auto-block upgrade, escalation path and SLA). -/
def generateStandardPlan (signal : ThreatSignal) (severity : ThreatSeverity)
    (customerConfig : Option CustomerConfig)
    (agentAnalyses : List (String × AgentAnalysis)) : ResponsePlan :=
  let templates := (RESPONSE_TEMPLATES.lookup signal.threatType).getD []
  let actions := (templates.lookup severity).getD [(.MONITOR, .NORMAL)]
  let builtActions := actions.map (fun p => buildAction p.1 p.2 signal severity)
  let autoBlock :=
    match customerConfig with
    | some config => config.autoBlockEnabled
    | none => false
  let responseActions :=
    if autoBlock then
      builtActions.map (fun a =>
        if a.actionType = .BLOCK_IP then
          { a with autoExecutable := true, requiresApproval := false }
        else a)
    else builtActions
  let primaryAction := responseActions.headD (buildMonitorAction signal)
  let secondaryActions := responseActions.drop 1
  let slaMinutes := (SLA_TIMES.lookup severity).getD 60
  { primaryAction := primaryAction
    secondaryActions := secondaryActions
    escalationPath := buildEscalationPath severity customerConfig
    slaMinutes := slaMinutes
    autoEscalateAfterMinutes := slaMinutes / 2
    notes := generateResponseNotes signal severity agentAnalyses }

/-- Embedding of `ResponseActionEngine.generate_response_plan`: short-circuit to the
minimal plan when the supplied FP score is at least 0.7, otherwise build
the templated plan. -/
def generateResponsePlan (signal : ThreatSignal) (severity : ThreatSeverity)
    (fpScore : Option FalsePositiveScore)
    (customerConfig : Option CustomerConfig)
    (agentAnalyses : List (String × AgentAnalysis)) : ResponsePlan :=
  match fpScore with
  | some fp =>
    if fp.score ≥ 0.7 then generateFpResponsePlan signal fp
    else generateStandardPlan signal severity customerConfig agentAnalyses
  | none => generateStandardPlan signal severity customerConfig agentAnalyses

end ResponseActionEngine

/-- Single event in the investigation timeline (`models.TimelineEvent`);
timestamps are rational milliseconds. -/
structure TimelineEvent where
  timestamp : ℚ
  eventType : TimelineEventType
  title : String
  description : String
  source : String
  data : List (String × PVal) := []
  severity : Option ThreatSeverity := none
  deriving DecidableEq, Repr

/-- Complete investigation timeline (`models.InvestigationTimeline`). -/
structure InvestigationTimeline where
  events : List TimelineEvent := []
  startTime : ℚ
  endTime : ℚ
  durationMs : ℤ := 0
  deriving DecidableEq, Repr

/-- Integer truncation toward zero, modelling Python's `int(...)` on the
duration computation. -/
def truncQ (q : ℚ) : ℤ :=
  q.num / (q.den : ℤ)

/-- Timestamp order on timeline events, the key of the final
`sorted(self.events, key=lambda e: e.timestamp)` call. -/
def eventLE (a b : TimelineEvent) : Prop :=
  a.timestamp ≤ b.timestamp

instance : DecidableRel eventLE :=
  fun a b => inferInstanceAs (Decidable (a.timestamp ≤ b.timestamp))

instance : IsTotal TimelineEvent eventLE :=
  ⟨fun a b => le_total a.timestamp b.timestamp⟩

instance : IsTrans TimelineEvent eventLE :=
  ⟨fun _ _ _ hab hbc => le_trans hab hbc⟩

namespace TimelineBuilder

/-- Embedding of `TimelineBuilder._add_detection_event`. -/
def detectionEvent (signal : ThreatSignal) : TimelineEvent :=
  { timestamp := signal.timestamp
    eventType := .DETECTION
    title := "Threat Detected"
    description :=
      ResponseActionEngine.titleWords (signal.threatType.value.replace "_" " ") ++
        " detected from " ++ (signal.metadata.sourceIp.getD "unknown")
    source := "Detection Engine"
    data := [("threat_type", .str signal.threatType.value),
             ("source_ip", .str (signal.metadata.sourceIp.getD "unknown")),
             ("customer", .str signal.customerName),
             ("request_count", .rat (signal.metadata.requestCount.getD 0))]
    severity := some .INFO }

/-- Embedding of `TimelineBuilder._add_enrichment_events`: four context-lookup
milestones at fixed offsets from 50ms after the signal timestamp. -/
def enrichmentEvents (signal : ThreatSignal) : List TimelineEvent :=
  let baseTime := signal.timestamp + 50
  [{ timestamp := baseTime
     eventType := .ENRICHMENT
     title := "Historical Data Retrieved"
     description := "Queried incident database for similar past events"
     source := "Historical Database"
     data := [("query_type", .str "similar_incidents"), ("time_range", .str "90 days")] },
   { timestamp := baseTime + 20
     eventType := .ENRICHMENT
     title := "Customer Configuration Loaded"
     description := "Retrieved security settings for " ++ signal.customerName
     source := "Config Service"
     data := [("customer", .str signal.customerName)] },
   { timestamp := baseTime + 35
     eventType := .ENRICHMENT
     title := "Infrastructure Events Retrieved"
     description := "Queried recent deployments and infrastructure changes"
     source := "DevOps Platform"
     data := [("time_range", .str "60 minutes")] },
   { timestamp := baseTime + 50
     eventType := .ENRICHMENT
     title := "Threat Intelligence Gathered"
     description := "Retrieved relevant security news and bulletins"
     source := "Threat Intel Feed"
     data := [("keywords", .strList [signal.customerName, signal.threatType.value])] }]

/-- Per-agent one-line descriptions used by
`_add_agent_analysis_events`. -/
def agentDescription (name : String) : String :=
  if name = "historical" then "Analyzed patterns from similar past incidents"
  else if name = "config" then "Evaluated against customer security policies"
  else if name = "devops" then "Correlated with infrastructure events"
  else if name = "context" then "Assessed business context and external factors"
  else if name = "priority" then "Determined severity and classification"
  else "Performed specialized analysis"

/-- Embedding of `TimelineBuilder._add_agent_analysis_events`.  The random jitter
(`random.randint(0, 50)` per agent) is an explicit input, one offset per
position in the result map. -/
def agentAnalysisEvents (startTime : ℚ)
    (agentAnalyses : List (String × AgentAnalysis))
    (jitter : ℕ → ℚ) : List TimelineEvent :=
  let baseTime := startTime + 100
  agentAnalyses.enum.map (fun p =>
    { timestamp := baseTime + jitter p.1
      eventType := .ANALYSIS
      title := ResponseActionEngine.titleWords p.2.1 ++ " Agent Analysis"
      description := agentDescription p.2.1
      source := ResponseActionEngine.titleWords p.2.1 ++ " Agent"
      data := [("confidence", .rat p.2.2.confidence),
               ("key_findings", .strList (p.2.2.keyFindings.take 2)),
               ("processing_time_ms", .num p.2.2.processingTimeMs)] })

/-- Embedding of `TimelineBuilder._add_fp_analysis_event`. -/
def fpAnalysisEvent (startTime : ℚ) (fpScore : FalsePositiveScore) : TimelineEvent :=
  { timestamp := startTime + 800
    eventType := .ANALYSIS
    title := "False Positive Analysis"
    description := "FP likelihood assessed: " ++ fpScore.recommendation.replace "_" " "
    source := "FP Analyzer"
    data := [("fp_score", .rat fpScore.score),
             ("confidence", .rat fpScore.confidence),
             ("indicators_count", .num fpScore.indicators.length),
             ("recommendation", .str fpScore.recommendation)] }

/-- Embedding of `TimelineBuilder._add_correlation_events`. -/
def correlationEvents (startTime : ℚ) (signal : ThreatSignal)
    (agentAnalyses : List (String × AgentAnalysis)) : List TimelineEvent :=
  let baseTime := startTime + 900
  let avgConfidence : ℚ :=
    if agentAnalyses = [] then 0
    else (agentAnalyses.map (fun p => p.2.confidence)).sum / (agentAnalyses.length : ℚ)
  [{ timestamp := baseTime
     eventType := .CORRELATION
     title := "Cross-Agent Correlation"
     description := "Synthesized findings from " ++ toString agentAnalyses.length ++
       " specialized agents"
     source := "Coordinator"
     data := [("agents_count", .num agentAnalyses.length),
              ("avg_confidence", .rat avgConfidence)] },
   { timestamp := baseTime + 50
     eventType := .CORRELATION
     title := "Pattern Matching Complete"
     description := "Matched threat against known attack patterns and signatures"
     source := "Pattern Matcher"
     data := [("threat_type", .str signal.threatType.value)] }]

/-- Embedding of `TimelineBuilder._add_decision_event`. -/
def decisionEvent (startTime : ℚ) (severity : ThreatSeverity)
    (fpScore : Option FalsePositiveScore) : TimelineEvent :=
  { timestamp := startTime + 1000
    eventType := .DECISION
    title := "Severity Determination"
    description :=
      "Threat classified as " ++ severity.value ++
        (match fpScore with
         | some fp => " with " ++ fmtPct0 fp.score ++ " FP likelihood"
         | none => "")
    source := "Coordinator"
    data := [("severity", .str severity.value),
             ("fp_score", match fpScore with
                          | some fp => .rat fp.score
                          | none => .null)]
    severity := some severity }

/-- Embedding of `TimelineBuilder._add_response_events`. -/
def responseEvents (startTime : ℚ) (responsePlan : ResponsePlan) : List TimelineEvent :=
  let baseTime := startTime + 1100
  let primary :=
    { timestamp := baseTime
      eventType := .ACTION
      title := "Primary Action: " ++ ResponseActionEngine.titleWords
        (responsePlan.primaryAction.actionType.value.replace "_" " ")
      description := responsePlan.primaryAction.reason
      source := "Response Engine"
      data := [("action_type", .str responsePlan.primaryAction.actionType.value),
               ("urgency", .str responsePlan.primaryAction.urgency.value),
               ("target", .str responsePlan.primaryAction.target),
               ("auto_executable", .bool responsePlan.primaryAction.autoExecutable)]
      : TimelineEvent }
  let secondary := responsePlan.secondaryActions.enum.map (fun p =>
    { timestamp := baseTime + 20 * ((p.1 : ℚ) + 1)
      eventType := .ACTION
      title := "Secondary Action: " ++ ResponseActionEngine.titleWords
        (p.2.actionType.value.replace "_" " ")
      description := p.2.reason
      source := "Response Engine"
      data := [("action_type", .str p.2.actionType.value),
               ("urgency", .str p.2.urgency.value),
               ("target", .str p.2.target)]
      : TimelineEvent })
  let escalation :=
    if responsePlan.escalationPath ≠ [] then
      [{ timestamp := baseTime + 100
         eventType := .ESCALATION
         title := "Escalation Path Defined"
         description := "Escalation chain: " ++
           String.intercalate " → " responsePlan.escalationPath
         source := "Response Engine"
         data := [("escalation_path", .strList responsePlan.escalationPath),
                  ("sla_minutes", .num responsePlan.slaMinutes)]
         : TimelineEvent }]
    else []
  primary :: secondary ++ escalation

/-- Embedding of `TimelineBuilder.build_timeline`: assemble every milestone and
return them sorted by timestamp.  The wall-clock end time and the
per-agent jitter are explicit inputs. -/
def buildTimeline (signal : ThreatSignal)
    (agentAnalyses : List (String × AgentAnalysis))
    (fpScore : Option FalsePositiveScore)
    (responsePlan : Option ResponsePlan)
    (severity : ThreatSeverity)
    (jitter : ℕ → ℚ) (endTime : ℚ) : InvestigationTimeline :=
  let startTime := signal.timestamp
  let events :=
    detectionEvent signal ::
    enrichmentEvents signal ++
    agentAnalysisEvents startTime agentAnalyses jitter ++
    (match fpScore with
     | some fp => [fpAnalysisEvent startTime fp]
     | none => []) ++
    correlationEvents startTime signal agentAnalyses ++
    [decisionEvent startTime severity fpScore] ++
    (match responsePlan with
     | some plan => responseEvents startTime plan
     | none => [])
  { events := List.insertionSort eventLE events
    startTime := startTime
    endTime := endTime
    durationMs := truncQ (endTime - startTime) }

end TimelineBuilder

/-- MITRE ATT&CK tactic (`models.MITRETactic`). -/
structure MITRETactic where
  id : String
  name : String
  description : String
  deriving DecidableEq, Repr

/-- MITRE ATT&CK technique (`models.MITRETechnique`). -/
structure MITRETechnique where
  id : String
  name : String
  description : String
  deriving DecidableEq, Repr

/-- Complete threat analysis from the coordinator
(`models.ThreatAnalysis`). -/
structure ThreatAnalysis where
  id : String
  signal : ThreatSignal
  status : ThreatStatus := .COMPLETED
  severity : ThreatSeverity
  executiveSummary : String
  mitreTactics : List MITRETactic := []
  mitreTechniques : List MITRETechnique := []
  customerNarrative : String
  agentAnalyses : List (String × AgentAnalysis) := []
  falsePositiveScore : Option FalsePositiveScore := none
  responsePlan : Option ResponsePlan := none
  investigationTimeline : Option InvestigationTimeline := none
  totalProcessingTimeMs : ℤ
  createdAt : ℚ
  requiresHumanReview : Bool := false
  reviewReason : Option String := none
  deriving DecidableEq, Repr

namespace CoordinatorAgent

/-- The registered analyzer identities, in dispatch order
(`CoordinatorAgent.analyze_threat`). -/
def AGENT_NAMES : List String :=
  ["historical", "config", "devops", "context", "priority"]

/-- The synthetic result the coordinator substitutes for an analyzer
whose call raised (`analyze_threat`, result-processing loop). -/
def failedAnalysis (name : String) (message : String) : AgentAnalysis :=
  { agentName := name
    analysis := "Agent failed: " ++ message
    confidence := 0.0
    keyFindings := ["Error"]
    recommendations := ["Manual review required"]
    processingTimeMs := 0 }

/-- Settling of one analyzer call outcome: a normal return is kept as is
and a raised exception becomes the synthetic failure result. -/
def resolveOutcome (name : String)
    (outcome : Except String AgentAnalysis) : AgentAnalysis :=
  match outcome with
  | .ok analysis => analysis
  | .error message => failedAnalysis name message

/-- The coordinator's result-processing loop over the settled outcomes of
`asyncio.gather(..., return_exceptions=True)`: zip the registered names
with the outcomes and settle each one in isolation. -/
def processAgentResults (outcomes : List (Except String AgentAnalysis)) :
    List (String × AgentAnalysis) :=
  (AGENT_NAMES.zip outcomes).map (fun p => (p.1, resolveOutcome p.1 p.2))

/-- Embedding of `CoordinatorAgent._extract_severity` combined with the coordinator's
guard `... if priority_analysis else ThreatSeverity.MEDIUM`. -/
def extractSeverity (priorityAnalysis : Option AgentAnalysis) : ThreatSeverity :=
  match priorityAnalysis with
  | none => .MEDIUM
  | some pa =>
    if pa.confidence = 0 then .MEDIUM
    else
      let analysisLower := strToLower pa.analysis
      if containsSubstr analysisLower "critical" then .CRITICAL
      else if containsSubstr analysisLower "high" then .HIGH
      else if containsSubstr analysisLower "low" then .LOW
      else .MEDIUM

/-- The human-review decision inside `CoordinatorAgent._synthesize_analysis`:
the review flag together with its reason. -/
def synthesizeReview (agentAnalyses : List (String × AgentAnalysis))
    (severity : ThreatSeverity)
    (fpScore : Option FalsePositiveScore) : Bool × Option String :=
  match agentAnalyses.lookup "priority" with
  | none => (false, none)
  | some priorityAnalysis =>
    if priorityAnalysis.confidence > 0 then
      let analysisLower := strToLower priorityAnalysis.analysis
      let requiresReview :=
        containsSubstr analysisLower "review" || severity = .CRITICAL
      if requiresReview then
        let reason :=
          if severity = .CRITICAL then
            "Critical severity threat requires human oversight"
          else
            match fpScore with
            | some fp =>
              if fp.score ≥ 0.4 ∧ fp.score ≤ 0.7 then
                "Uncertain false positive classification"
              else "Agent recommendation for manual review"
            | none => "Agent recommendation for manual review"
        (true, some reason)
      else (false, none)
    else (false, none)

end CoordinatorAgent

/-- In-memory threat storage (`store.InMemoryStore`), the in-process
fallback variant of the distribution store. -/
structure InMemoryStore where
  threats : List ThreatAnalysis := []
  maxThreats : ℕ := 100
  totalCount : ℕ := 0
  deriving DecidableEq, Repr

namespace InMemoryStore

/-- A freshly constructed store (`InMemoryStore.__init__`). -/
def init (maxThreats : ℕ) : InMemoryStore :=
  { threats := [], maxThreats := maxThreats, totalCount := 0 }

/-- Embedding of `InMemoryStore.save_threat`: increment the total counter, push the
new threat at the front and drop the oldest entry when over capacity. -/
def saveThreat (s : InMemoryStore) (threat : ThreatAnalysis) : InMemoryStore :=
  let threats := threat :: s.threats
  let threats := if threats.length > s.maxThreats then threats.dropLast else threats
  { s with threats := threats, totalCount := s.totalCount + 1 }

/-- Embedding of `InMemoryStore.get_threat`: linear scan by id. -/
def getThreat (s : InMemoryStore) (threatId : String) : Option ThreatAnalysis :=
  s.threats.find? (fun t => t.id == threatId)

/-- Embedding of `InMemoryStore.get_threats`: the Python slice
`threats[offset : offset + limit]`. -/
def getThreats (s : InMemoryStore) (limit : ℕ) (offset : ℕ) : List ThreatAnalysis :=
  (s.threats.drop offset).take limit

/-- Embedding of `InMemoryStore.get_total_count`. -/
def getTotalCount (s : InMemoryStore) : ℕ :=
  s.totalCount

/-- A sequence of saves, folded left in arrival order. -/
def saveAll (s : InMemoryStore) (threats : List ThreatAnalysis) : InMemoryStore :=
  threats.foldl saveThreat s

end InMemoryStore

/-- A bot-traffic signal whose only metadata is a recognized benign
crawler user agent. -/
def sampleBotSignal : ThreatSignal :=
  { id := "sig-1"
    threatType := .BOT_TRAFFIC
    customerName := "acme"
    timestamp := 0
    metadata := { userAgent := some "googlebot" } }

/-- The user-agent indicator the analyzer produces for the sample bot
signal. -/
def sampleUaIndicator : FalsePositiveIndicator :=
  { indicator := "Known benign bot: googlebot"
    weight := 0.4
    description := "User agent matches known benign crawler: googlebot"
    source := "FP Analyzer - User Agent Check" }

/-- The volume indicator the analyzer produces for the sample bot signal
(zero recorded requests give a zero rate). -/
def sampleVolumeIndicator : FalsePositiveIndicator :=
  { indicator := "Low request volume"
    weight := 0.2
    description := "Only " ++ fmtFixed 1 0 ++ " requests/minute - may be normal traffic"
    source := "FP Analyzer - Volume Check" }

/-- A device-compromise signal with empty metadata. -/
def sampleCriticalSignal : ThreatSignal :=
  { id := "sig-2"
    threatType := .DEVICE_COMPROMISE
    customerName := "acme"
    timestamp := 0
    metadata := {} }

/-- A priority-agent analysis that classifies the threat as critical. -/
def samplePriorityAnalysis : AgentAnalysis :=
  { agentName := "priority"
    analysis := "This is a CRITICAL threat"
    confidence := 0.9
    keyFindings := ["critical pattern"]
    recommendations := []
    processingTimeMs := 10 }

/-- An FP verdict with a high score, for exercising the short-circuit. -/
def sampleHighFpScore : FalsePositiveScore :=
  { score := 0.8
    confidence := 0.6
    recommendation := "likely_false_positive"
    explanation := "test" }

/-- A minimal stored threat analysis. -/
def sampleThreatAnalysis : ThreatAnalysis :=
  { id := "ta-1"
    signal := sampleCriticalSignal
    severity := .MEDIUM
    executiveSummary := "summary"
    customerNarrative := "narrative"
    totalProcessingTimeMs := 5
    createdAt := 0 }

/-- Claim C1: for every outcome of the five analyzer calls (normal return
or raised exception), the coordinator's result-processing step yields a
map with exactly one entry per registered analyzer — historical, config,
devops, context, priority, in that order; an analyzer whose call raised
is represented by the synthetic failure result with confidence 0.0 and
the standardized failure finding, and an analyzer that returned normally
keeps its own result untouched, independent of every sibling outcome. -/
theorem coordinator_isolates_agent_failures
    (r1 r2 r3 r4 r5 : Except String AgentAnalysis) :
    CoordinatorAgent.processAgentResults [r1, r2, r3, r4, r5] =
      [("historical", CoordinatorAgent.resolveOutcome "historical" r1),
       ("config", CoordinatorAgent.resolveOutcome "config" r2),
       ("devops", CoordinatorAgent.resolveOutcome "devops" r3),
       ("context", CoordinatorAgent.resolveOutcome "context" r4),
       ("priority", CoordinatorAgent.resolveOutcome "priority" r5)] ∧
    (∀ name message,
      CoordinatorAgent.resolveOutcome name (.error message) =
        CoordinatorAgent.failedAnalysis name message ∧
      (CoordinatorAgent.failedAnalysis name message).confidence = 0 ∧
      (CoordinatorAgent.failedAnalysis name message).keyFindings = ["Error"]) ∧
    (∀ name analysis,
      CoordinatorAgent.resolveOutcome name (.ok analysis) = analysis) := by
  refine ⟨rfl, fun name message =>
    ⟨rfl, by norm_num [CoordinatorAgent.failedAnalysis], rfl⟩, fun name analysis => rfl⟩

/-- Claim C4: whenever the supplied FP verdict has score at least 0.7,
the response engine returns the minimal false-positive plan: a monitor
action at low urgency, auto-executable, not requiring approval and
reversible, with no secondary actions and an escalation chain consisting
only of the lowest tier — for every category, severity, tenant policy
and analyzer-result map. -/
theorem fp_short_circuit_plan (signal : ThreatSignal) (severity : ThreatSeverity)
    (fp : FalsePositiveScore) (customerConfig : Option CustomerConfig)
    (agentAnalyses : List (String × AgentAnalysis))
    (h : fp.score ≥ 0.7) :
    ResponseActionEngine.generateResponsePlan signal severity (some fp)
        customerConfig agentAnalyses =
      ResponseActionEngine.generateFpResponsePlan signal fp ∧
    (ResponseActionEngine.generateResponsePlan signal severity (some fp)
        customerConfig agentAnalyses).primaryAction.actionType = .MONITOR ∧
    (ResponseActionEngine.generateResponsePlan signal severity (some fp)
        customerConfig agentAnalyses).primaryAction.urgency = .LOW ∧
    (ResponseActionEngine.generateResponsePlan signal severity (some fp)
        customerConfig agentAnalyses).primaryAction.autoExecutable = true ∧
    (ResponseActionEngine.generateResponsePlan signal severity (some fp)
        customerConfig agentAnalyses).primaryAction.requiresApproval = false ∧
    (ResponseActionEngine.generateResponsePlan signal severity (some fp)
        customerConfig agentAnalyses).primaryAction.rollbackPossible = true ∧
    (ResponseActionEngine.generateResponsePlan signal severity (some fp)
        customerConfig agentAnalyses).secondaryActions = [] ∧
    (ResponseActionEngine.generateResponsePlan signal severity (some fp)
        customerConfig agentAnalyses).escalationPath = ["SOC Tier 1"] := by
  have hplan : ResponseActionEngine.generateResponsePlan signal severity (some fp)
      customerConfig agentAnalyses = ResponseActionEngine.generateFpResponsePlan signal fp := by
    simp [ResponseActionEngine.generateResponsePlan, h]
  refine ⟨hplan, ?_, ?_, ?_, ?_, ?_, ?_, ?_⟩ <;>
    rw [hplan] <;> rfl

/-- Witness for C4 at a concrete input: a verdict with score 0.8 on the
sample bot signal at high severity. -/
theorem fp_short_circuit_plan_witness :
    (0.7 : ℚ) ≤ sampleHighFpScore.score ∧
    (ResponseActionEngine.generateResponsePlan sampleBotSignal .HIGH
        (some sampleHighFpScore) none []).primaryAction.actionType = .MONITOR ∧
    (ResponseActionEngine.generateResponsePlan sampleBotSignal .HIGH
        (some sampleHighFpScore) none []).secondaryActions = [] :=
  ⟨by norm_num [sampleHighFpScore],
   (fp_short_circuit_plan sampleBotSignal .HIGH sampleHighFpScore none []
     (by norm_num [sampleHighFpScore])).2.1,
   (fp_short_circuit_plan sampleBotSignal .HIGH sampleHighFpScore none []
     (by norm_num [sampleHighFpScore])).2.2.2.2.2.2.1⟩

/-- Claim C8: for every combination of inputs to the timeline builder —
including every choice of per-agent jitter and wall-clock end time — the
events list of the returned timeline is sorted non-decreasing by
timestamp. -/
theorem timeline_events_sorted (signal : ThreatSignal)
    (agentAnalyses : List (String × AgentAnalysis))
    (fpScore : Option FalsePositiveScore)
    (responsePlan : Option ResponsePlan)
    (severity : ThreatSeverity)
    (jitter : ℕ → ℚ) (endTime : ℚ) :
    List.Sorted eventLE
      (TimelineBuilder.buildTimeline signal agentAnalyses fpScore responsePlan
        severity jitter endTime).events := by
  simp only [TimelineBuilder.buildTimeline]
  exact List.sorted_insertionSort eventLE _

/-- Claim C9, counterexample: at critical severity the budget is 15
minutes but the auto-escalation threshold is the integer division
15 // 2 = 7, which is not half of 15 — doubling it does not give the
budget back. -/
theorem sla_half_budget_counterexample :
    (ResponseActionEngine.generateResponsePlan sampleCriticalSignal .CRITICAL
        none none []).slaMinutes = 15 ∧
    (ResponseActionEngine.generateResponsePlan sampleCriticalSignal .CRITICAL
        none none []).autoEscalateAfterMinutes = 7 ∧
    ¬((ResponseActionEngine.generateResponsePlan sampleCriticalSignal .CRITICAL
        none none []).autoEscalateAfterMinutes * 2 =
      (ResponseActionEngine.generateResponsePlan sampleCriticalSignal .CRITICAL
        none none []).slaMinutes) := by
  decide

/-- Claim C9, amended: for every non-short-circuited plan the response
budget equals the static severity-to-minutes table entry (60 when the
severity is absent from that table) and the auto-escalation threshold is
half of that budget rounded down (integer division by two). -/
theorem sla_budget_and_floor_half_threshold (signal : ThreatSignal)
    (severity : ThreatSeverity) (fpScore : Option FalsePositiveScore)
    (customerConfig : Option CustomerConfig)
    (agentAnalyses : List (String × AgentAnalysis))
    (h : ∀ fp, fpScore = some fp → fp.score < 0.7) :
    (ResponseActionEngine.generateResponsePlan signal severity fpScore
        customerConfig agentAnalyses).slaMinutes =
      (ResponseActionEngine.SLA_TIMES.lookup severity).getD 60 ∧
    (ResponseActionEngine.generateResponsePlan signal severity fpScore
        customerConfig agentAnalyses).autoEscalateAfterMinutes =
      (ResponseActionEngine.SLA_TIMES.lookup severity).getD 60 / 2 := by
  have hplan : ResponseActionEngine.generateResponsePlan signal severity fpScore
      customerConfig agentAnalyses =
      ResponseActionEngine.generateStandardPlan signal severity customerConfig
        agentAnalyses := by
    cases fpScore with
    | none => rfl
    | some fp =>
      have hfp := h fp rfl
      simp [ResponseActionEngine.generateResponsePlan, not_le.mpr hfp]
  rw [hplan]
  exact ⟨rfl, rfl⟩

/-- Witness for the amended C9 at a concrete input: medium severity with
no FP verdict gives a 60-minute budget and a 30-minute threshold. -/
theorem sla_budget_witness :
    (ResponseActionEngine.generateResponsePlan sampleCriticalSignal .MEDIUM
        none none []).slaMinutes =
      (ResponseActionEngine.SLA_TIMES.lookup .MEDIUM).getD 60 ∧
    (ResponseActionEngine.generateResponsePlan sampleCriticalSignal .MEDIUM
        none none []).autoEscalateAfterMinutes =
      (ResponseActionEngine.SLA_TIMES.lookup .MEDIUM).getD 60 / 2 :=
  sla_budget_and_floor_half_threshold sampleCriticalSignal .MEDIUM none none []
    (fun fp hfp => by cases hfp)

/-- Membership in `headD d l :: drop 1 l` comes from the default or from
the list itself. -/
theorem mem_headD_cons_drop {α : Type} {l : List α} {d a : α}
    (h : a ∈ l.headD d :: l.drop 1) : a = d ∨ a ∈ l := by
  cases l with
  | nil => simp at h; exact Or.inl h
  | cons x xs =>
    simp only [List.headD_cons, List.drop_succ_cons, List.drop_zero] at h
    exact Or.inr h

/-- Every templated action satisfies the approval/auto-execution
complement by construction. -/
theorem buildAction_approval (actionType : ResponseActionType)
    (urgency : ResponseUrgency) (signal : ThreatSignal)
    (severity : ThreatSeverity) :
    (ResponseActionEngine.buildAction actionType urgency signal severity).requiresApproval =
      !(ResponseActionEngine.buildAction actionType urgency signal severity).autoExecutable :=
  rfl

/-- Claim C10: every action in a generated plan — templated, default
monitor, false-positive short-circuit, or block action upgraded by a
tenant policy with automatic blocking — has its requires-approval flag
equal to the negation of its auto-executable flag. -/
theorem plan_actions_approval_invariant (signal : ThreatSignal)
    (severity : ThreatSeverity) (fpScore : Option FalsePositiveScore)
    (customerConfig : Option CustomerConfig)
    (agentAnalyses : List (String × AgentAnalysis)) :
    ∀ a ∈ (ResponseActionEngine.generateResponsePlan signal severity fpScore
            customerConfig agentAnalyses).primaryAction ::
          (ResponseActionEngine.generateResponsePlan signal severity fpScore
            customerConfig agentAnalyses).secondaryActions,
      a.requiresApproval = !a.autoExecutable := by
  have hstd : ∀ a ∈ (ResponseActionEngine.generateStandardPlan signal severity
        customerConfig agentAnalyses).primaryAction ::
      (ResponseActionEngine.generateStandardPlan signal severity
        customerConfig agentAnalyses).secondaryActions,
      a.requiresApproval = !a.autoExecutable := by
    intro a ha
    simp only [ResponseActionEngine.generateStandardPlan] at ha
    rcases mem_headD_cons_drop ha with rfl | hmem
    · rfl
    · split at hmem
      · rcases List.mem_map.1 hmem with ⟨b, hb, rfl⟩
        rcases List.mem_map.1 hb with ⟨p, _, rfl⟩
        by_cases hbt : (ResponseActionEngine.buildAction p.1 p.2 signal
            severity).actionType = .BLOCK_IP
        · simp only [hbt, if_true]
          rfl
        · simp only [hbt, if_false]
          exact buildAction_approval p.1 p.2 signal severity
      · rcases List.mem_map.1 hmem with ⟨p, _, rfl⟩
        exact buildAction_approval p.1 p.2 signal severity
  intro a ha
  cases fpScore with
  | none =>
    simp only [ResponseActionEngine.generateResponsePlan] at ha
    exact hstd a ha
  | some fp =>
    simp only [ResponseActionEngine.generateResponsePlan] at ha
    by_cases hge : fp.score ≥ 0.7
    · rw [if_pos hge] at ha
      simp only [ResponseActionEngine.generateFpResponsePlan,
        List.mem_cons, List.not_mem_nil, or_false] at ha
      subst ha
      rfl
    · rw [if_neg hge] at ha
      exact hstd a ha

/-- Witness for C10 at a concrete input: the primary action of a
standard critical-severity plan. -/
theorem plan_actions_approval_invariant_witness :
    (ResponseActionEngine.generateResponsePlan sampleCriticalSignal .CRITICAL
        none none []).primaryAction.requiresApproval =
      !(ResponseActionEngine.generateResponsePlan sampleCriticalSignal .CRITICAL
        none none []).primaryAction.autoExecutable :=
  plan_actions_approval_invariant sampleCriticalSignal .CRITICAL none none []
    _ (List.mem_cons_self _ _)

/-- Saving never changes the configured capacity. -/
theorem saveAll_maxThreats (threats : List ThreatAnalysis) :
    ∀ s : InMemoryStore, (InMemoryStore.saveAll s threats).maxThreats = s.maxThreats := by
  induction threats with
  | nil => intro s; rfl
  | cons t ts ih =>
    intro s
    simpa [InMemoryStore.saveAll, List.foldl] using ih (s.saveThreat t)

/-- The total counter advances by exactly the number of saves. -/
theorem saveAll_totalCount (threats : List ThreatAnalysis) :
    ∀ s : InMemoryStore,
      (InMemoryStore.saveAll s threats).totalCount = s.totalCount + threats.length := by
  induction threats with
  | nil => intro s; rfl
  | cons t ts ih =>
    intro s
    have h1 := ih (s.saveThreat t)
    have h2 : (s.saveThreat t).totalCount = s.totalCount + 1 := rfl
    simp only [InMemoryStore.saveAll, List.foldl] at h1 ⊢
    rw [h1, h2, List.length_cons]
    omega

/-- One save grows the window by one entry up to the capacity bound. -/
theorem saveThreat_length (s : InMemoryStore) (t : ThreatAnalysis)
    (h : s.threats.length ≤ s.maxThreats) :
    (s.saveThreat t).threats.length = min (s.threats.length + 1) s.maxThreats := by
  simp only [InMemoryStore.saveThreat]
  split
  · rename_i hc
    simp only [List.length_cons] at hc
    simp only [List.length_dropLast, List.length_cons]
    omega
  · rename_i hc
    simp only [List.length_cons] at hc
    simp only [List.length_cons]
    omega

/-- The stored window after a run of saves holds as many entries as were
saved, capped at the capacity. -/
theorem saveAll_length (threats : List ThreatAnalysis) :
    ∀ s : InMemoryStore, s.threats.length ≤ s.maxThreats →
      (InMemoryStore.saveAll s threats).threats.length =
        min (s.threats.length + threats.length) s.maxThreats := by
  induction threats with
  | nil =>
    intro s h
    simp only [InMemoryStore.saveAll, List.foldl, List.length_nil]
    omega
  | cons t ts ih =>
    intro s h
    have hlen := saveThreat_length s t h
    have hmax : (s.saveThreat t).maxThreats = s.maxThreats := rfl
    have hnext : (s.saveThreat t).threats.length ≤ (s.saveThreat t).maxThreats := by
      rw [hlen, hmax]; omega
    have := ih (s.saveThreat t) hnext
    simp only [InMemoryStore.saveAll, List.foldl] at this ⊢
    rw [this, hlen, hmax, List.length_cons]
    omega

/-- Claim C5: on the in-process store, every save increments the total
counter by exactly one, so the counter is monotonically non-decreasing
across any sequence of operations; after any run of saves the counter is
at least the number of items an unbounded `List` returns; and after N
saves into a store of capacity K with N exceeding K, `List` returns
exactly K entries while the total counter reports N. -/
theorem inmemory_store_counts (K : ℕ) (ts : List ThreatAnalysis) :
    (∀ (s : InMemoryStore) (t : ThreatAnalysis),
      (s.saveThreat t).totalCount = s.totalCount + 1) ∧
    (∀ (s : InMemoryStore) (more : List ThreatAnalysis),
      s.totalCount ≤ (InMemoryStore.saveAll s more).totalCount) ∧
    (InMemoryStore.saveAll (InMemoryStore.init K) ts).getTotalCount = ts.length ∧
    (InMemoryStore.saveAll (InMemoryStore.init K) ts).threats.length = min ts.length K ∧
    (∀ limit,
      ((InMemoryStore.saveAll (InMemoryStore.init K) ts).getThreats limit 0).length ≤
        (InMemoryStore.saveAll (InMemoryStore.init K) ts).getTotalCount) ∧
    (K < ts.length →
      ((InMemoryStore.saveAll (InMemoryStore.init K) ts).getThreats ts.length 0).length = K ∧
      (InMemoryStore.saveAll (InMemoryStore.init K) ts).getTotalCount = ts.length) := by
  have htotal : (InMemoryStore.saveAll (InMemoryStore.init K) ts).getTotalCount = ts.length := by
    have := saveAll_totalCount ts (InMemoryStore.init K)
    simpa [InMemoryStore.getTotalCount, InMemoryStore.init] using this
  have hlen : (InMemoryStore.saveAll (InMemoryStore.init K) ts).threats.length =
      min ts.length K := by
    have := saveAll_length ts (InMemoryStore.init K) (by simp [InMemoryStore.init])
    simpa [InMemoryStore.init] using this
  refine ⟨fun s t => rfl, ?_, htotal, hlen, ?_, ?_⟩
  · intro s more
    rw [saveAll_totalCount more s]
    omega
  · intro limit
    have : ((InMemoryStore.saveAll (InMemoryStore.init K) ts).getThreats limit 0).length ≤
        (InMemoryStore.saveAll (InMemoryStore.init K) ts).threats.length := by
      simp only [InMemoryStore.getThreats, List.drop_zero, List.length_take]
      omega
    rw [htotal]
    omega
  · intro hKN
    constructor
    · simp only [InMemoryStore.getThreats, List.drop_zero, List.length_take, hlen]
      omega
    · exact htotal

/-- Witness for C5 at a concrete input: three saves into a store of
capacity two leave two entries in the window and a total count of
three. -/
theorem inmemory_store_counts_witness :
    (InMemoryStore.saveAll (InMemoryStore.init 2)
      [sampleThreatAnalysis, sampleThreatAnalysis, sampleThreatAnalysis]).getTotalCount = 3 ∧
    ((InMemoryStore.saveAll (InMemoryStore.init 2)
      [sampleThreatAnalysis, sampleThreatAnalysis, sampleThreatAnalysis]).getThreats 3 0).length = 2 := by
  have h := inmemory_store_counts 2
    [sampleThreatAnalysis, sampleThreatAnalysis, sampleThreatAnalysis]
  exact ⟨h.2.2.1, (h.2.2.2.2.2 (by norm_num)).1⟩

/-- Claim C6: whenever the severity derived from the priority analyzer's
output is critical, the synthesized verdict forces the human-review flag
and its reason cites critical severity.  The hypothesis that the stored
confidence is non-negative mirrors the model validation bound
`confidence: float = Field(ge=0.0, le=1.0)`. -/
theorem critical_severity_forces_review
    (agentAnalyses : List (String × AgentAnalysis))
    (fpScore : Option FalsePositiveScore)
    (hconf : ∀ pa, agentAnalyses.lookup "priority" = some pa → 0 ≤ pa.confidence)
    (hcrit : CoordinatorAgent.extractSeverity (agentAnalyses.lookup "priority") = .CRITICAL) :
    CoordinatorAgent.synthesizeReview agentAnalyses
        (CoordinatorAgent.extractSeverity (agentAnalyses.lookup "priority")) fpScore =
      (true, some "Critical severity threat requires human oversight") := by
  rw [hcrit]
  cases hl : agentAnalyses.lookup "priority" with
  | none =>
    rw [hl] at hcrit
    exact absurd hcrit (by simp [CoordinatorAgent.extractSeverity])
  | some pa =>
    rw [hl] at hcrit
    have hne : pa.confidence ≠ 0 := by
      intro h0
      simp [CoordinatorAgent.extractSeverity, h0] at hcrit
    have hpos : 0 < pa.confidence := lt_of_le_of_ne (hconf pa hl) (Ne.symm hne)
    simp [CoordinatorAgent.synthesizeReview, hl, hpos]

/-- Witness for C6 at a concrete input: a priority analysis mentioning
"critical" with confidence 0.9 yields the forced review flag. -/
theorem critical_severity_forces_review_witness :
    CoordinatorAgent.synthesizeReview [("priority", samplePriorityAnalysis)]
        (CoordinatorAgent.extractSeverity
          (List.lookup "priority" [("priority", samplePriorityAnalysis)])) none =
      (true, some "Critical severity threat requires human oversight") :=
  critical_severity_forces_review [("priority", samplePriorityAnalysis)] none
    (fun pa h => by
      rw [show List.lookup "priority" [("priority", samplePriorityAnalysis)] =
        some samplePriorityAnalysis from rfl] at h
      injection h with h
      rw [← h]
      norm_num [samplePriorityAnalysis])
    (by
      rw [show List.lookup "priority" [("priority", samplePriorityAnalysis)] =
        some samplePriorityAnalysis from rfl]
      simp only [CoordinatorAgent.extractSeverity]
      rw [if_neg (by norm_num [samplePriorityAnalysis]), if_pos (by decide)])

/-- Three-decimal rounding is the identity on exact multiples of one
thousandth. -/
theorem round3_eq_self {q : ℚ} (h : ∃ n : ℤ, q * 1000 = (n : ℚ)) : round3 q = q := by
  obtain ⟨n, hn⟩ := h
  have hq : q = (n : ℚ) / 1000 := by
    rw [eq_div_iff (by norm_num : (1000 : ℚ) ≠ 0)]
    exact hn
  simp only [round3]
  rw [hn, round_intCast]
  exact hq.symm

/-- Three-decimal rounding is monotone. -/
theorem round3_mono {x y : ℚ} (h : x ≤ y) : round3 x ≤ round3 y := by
  simp only [round3]
  have hr : round (x * 1000) ≤ round (y * 1000) := by
    rw [round_eq, round_eq]
    exact Int.floor_le_floor (by linarith)
  exact (div_le_div_iff_of_pos_right (by norm_num : (0 : ℚ) < 1000)).mpr (Int.cast_le.mpr hr)

/-- Rounding fixes zero. -/
theorem round3_zero : round3 0 = 0 := by
  simp [round3]

/-- Rounding fixes one. -/
theorem round3_one : round3 1 = 1 := by
  simp only [round3, one_mul]
  rw [show (1000 : ℚ) = ((1000 : ℤ) : ℚ) by norm_num, round_intCast]
  norm_num

/-- User-agent indicators carry weight 0.4 or -0.2. -/
theorem analyzeUserAgent_weight {s : ThreatSignal} {i : FalsePositiveIndicator}
    (h : FalsePositiveAnalyzer.analyzeUserAgent s = some i) :
    i.weight = 0.4 ∨ i.weight = -0.2 := by
  simp only [FalsePositiveAnalyzer.analyzeUserAgent] at h
  split at h
  · simp at h
  · split at h
    · simp at h
    · split at h
      · injection h with h
        subst h
        left
        rfl
      · split at h
        · injection h with h
          subst h
          right
          rfl
        · simp at h

/-- IP indicators carry weight 0.5. -/
theorem analyzeIp_weight {s : ThreatSignal} {i : FalsePositiveIndicator}
    (h : FalsePositiveAnalyzer.analyzeIp s = some i) : i.weight = 0.5 := by
  simp only [FalsePositiveAnalyzer.analyzeIp] at h
  split at h
  · injection h with h
    subst h
    rfl
  · simp at h

/-- Volume indicators carry weight 0.2 or -0.3. -/
theorem analyzeRequestVolume_weight {s : ThreatSignal} {i : FalsePositiveIndicator}
    (h : FalsePositiveAnalyzer.analyzeRequestVolume s = some i) :
    i.weight = 0.2 ∨ i.weight = -0.3 := by
  simp only [FalsePositiveAnalyzer.analyzeRequestVolume] at h
  split at h
  · injection h with h
    subst h
    left
    rfl
  · split at h
    · injection h with h
      subst h
      right
      rfl
    · simp at h

/-- Historical indicators carry weight 0.3, -0.3 or 0.25. -/
theorem analyzeHistoricalPatterns_weight {s : ThreatSignal}
    {sims : List HistoricalIncident} {i : FalsePositiveIndicator}
    (h : i ∈ FalsePositiveAnalyzer.analyzeHistoricalPatterns s sims) :
    i.weight = 0.3 ∨ i.weight = -0.3 ∨ i.weight = 0.25 := by
  simp only [FalsePositiveAnalyzer.analyzeHistoricalPatterns] at h
  split at h
  · simp at h
  · rcases List.mem_append.1 h with h' | h'
    · split at h'
      · split at h'
        · simp at h'
          subst h'
          left
          rfl
        · split at h'
          · simp at h'
            subst h'
            right
            left
            rfl
          · simp at h'
      · simp at h'
    · split at h'
      · split at h'
        · simp at h'
          subst h'
          right
          right
          rfl
        · simp at h'
      · simp at h'

/-- Agent-confidence indicators carry weight 0.2 or -0.2. -/
theorem analyzeAgentConfidence_weight
    {a : List (String × AgentAnalysis)} {i : FalsePositiveIndicator}
    (h : FalsePositiveAnalyzer.analyzeAgentConfidence a = some i) :
    i.weight = 0.2 ∨ i.weight = -0.2 := by
  simp only [FalsePositiveAnalyzer.analyzeAgentConfidence] at h
  split at h
  · simp at h
  · split at h
    · injection h with h
      subst h
      left
      rfl
    · split at h
      · injection h with h
        subst h
        right
        rfl
      · simp at h

/-- Benign-pattern indicators carry weight 0.4 or 0.3. -/
theorem checkBenignPatterns_weight {s : ThreatSignal} {i : FalsePositiveIndicator}
    (h : FalsePositiveAnalyzer.checkBenignPatterns s = some i) :
    i.weight = 0.4 ∨ i.weight = 0.3 := by
  simp only [FalsePositiveAnalyzer.checkBenignPatterns] at h
  split at h
  · injection h with h
    subst h
    left
    rfl
  · split at h
    · injection h with h
      subst h
      right
      rfl
    · simp at h

/-- Every indicator the analyzer assembles has a weight that is an exact
multiple of one twentieth. -/
theorem fpIndicators_weight {s : ThreatSignal}
    {a : List (String × AgentAnalysis)} {sims : List HistoricalIncident}
    {i : FalsePositiveIndicator}
    (h : i ∈ FalsePositiveAnalyzer.fpIndicators s a sims) :
    ∃ n : ℤ, i.weight = (n : ℚ) / 20 := by
  simp only [FalsePositiveAnalyzer.fpIndicators, List.mem_append,
    Option.mem_toList, Option.mem_def] at h
  rcases h with ((((hua | hip) | hvol) | hhist) | hconf) | hben
  · rcases analyzeUserAgent_weight hua with hw | hw
    · exact ⟨8, by rw [hw]; norm_num⟩
    · exact ⟨-4, by rw [hw]; norm_num⟩
  · exact ⟨10, by rw [analyzeIp_weight hip]; norm_num⟩
  · rcases analyzeRequestVolume_weight hvol with hw | hw
    · exact ⟨4, by rw [hw]; norm_num⟩
    · exact ⟨-6, by rw [hw]; norm_num⟩
  · rcases analyzeHistoricalPatterns_weight hhist with hw | hw | hw
    · exact ⟨6, by rw [hw]; norm_num⟩
    · exact ⟨-6, by rw [hw]; norm_num⟩
    · exact ⟨5, by rw [hw]; norm_num⟩
  · rcases analyzeAgentConfidence_weight hconf with hw | hw
    · exact ⟨4, by rw [hw]; norm_num⟩
    · exact ⟨-4, by rw [hw]; norm_num⟩
  · rcases checkBenignPatterns_weight hben with hw | hw
    · exact ⟨8, by rw [hw]; norm_num⟩
    · exact ⟨6, by rw [hw]; norm_num⟩

/-- The sum of weights that are multiples of one twentieth is again a
multiple of one twentieth. -/
theorem sum_weights_int20 {l : List FalsePositiveIndicator}
    (h : ∀ i ∈ l, ∃ n : ℤ, i.weight = (n : ℚ) / 20) :
    ∃ m : ℤ, ((l.map (fun i => i.weight)).sum) = (m : ℚ) / 20 := by
  induction l with
  | nil => exact ⟨0, by simp⟩
  | cons x xs ih =>
    obtain ⟨n, hx⟩ := h x (List.mem_cons_self x xs)
    obtain ⟨m, hs⟩ := ih (fun i hi => h i (List.mem_cons_of_mem x hi))
    refine ⟨n + m, ?_⟩
    simp only [List.map_cons, List.sum_cons, hx, hs]
    push_cast
    ring

/-- Every baseline rate in the table, and the fallback, is an exact
multiple of one twentieth. -/
theorem baseline_int20 (t : ThreatType) :
    ∃ n : ℤ, (FalsePositiveAnalyzer.BASELINE_FP_RATES.lookup t).getD 0.3 = (n : ℚ) / 20 := by
  cases t
  · exact ⟨7, by rw [show FalsePositiveAnalyzer.BASELINE_FP_RATES.lookup .BOT_TRAFFIC =
      some 0.35 from rfl]; norm_num⟩
  · exact ⟨8, by rw [show FalsePositiveAnalyzer.BASELINE_FP_RATES.lookup .PROXY_NETWORK =
      some 0.40 from rfl]; norm_num⟩
  · exact ⟨2, by rw [show FalsePositiveAnalyzer.BASELINE_FP_RATES.lookup .DEVICE_COMPROMISE =
      some 0.10 from rfl]; norm_num⟩
  · exact ⟨10, by rw [show FalsePositiveAnalyzer.BASELINE_FP_RATES.lookup .ANOMALY_DETECTION =
      some 0.50 from rfl]; norm_num⟩
  · exact ⟨9, by rw [show FalsePositiveAnalyzer.BASELINE_FP_RATES.lookup .RATE_LIMIT_BREACH =
      some 0.45 from rfl]; norm_num⟩
  · exact ⟨11, by rw [show FalsePositiveAnalyzer.BASELINE_FP_RATES.lookup .GEO_ANOMALY =
      some 0.55 from rfl]; norm_num⟩

/-- The clamped adjusted score is an exact multiple of one thousandth
whenever the baseline and the weight sum are multiples of one
twentieth. -/
theorem clamp_mul1000 {b w : ℚ} (hb : ∃ n : ℤ, b = (n : ℚ) / 20)
    (hw : ∃ m : ℤ, w = (m : ℚ) / 20) :
    ∃ k : ℤ, (max 0 (min 1 (b + w * 0.3))) * 1000 = (k : ℚ) := by
  obtain ⟨n, rfl⟩ := hb
  obtain ⟨m, rfl⟩ := hw
  rcases le_total 1 ((n : ℚ) / 20 + (m : ℚ) / 20 * 0.3) with h1 | h1
  · refine ⟨1000, ?_⟩
    rw [min_eq_left h1, max_eq_right (by norm_num : (0 : ℚ) ≤ 1)]
    norm_num
  · rw [min_eq_right h1]
    rcases le_total ((n : ℚ) / 20 + (m : ℚ) / 20 * 0.3) 0 with h0 | h0
    · refine ⟨0, ?_⟩
      rw [max_eq_left h0]
      norm_num
    · refine ⟨50 * n + 15 * m, ?_⟩
      rw [max_eq_right h0]
      push_cast
      ring

/-- Claim C2: for every event, analyzer-result map and similar-incident
list, the trust scorer's final score equals the clamp to [0,1] of the
baseline rate plus 0.3 times the sum of the generated indicator weights,
rounded to three decimals, where the baseline is the static
category-to-rate table entry with fallback 0.3. -/
theorem fp_score_formula (signal : ThreatSignal)
    (agentAnalyses : List (String × AgentAnalysis))
    (similarIncidents : List HistoricalIncident) :
    (FalsePositiveAnalyzer.analyze signal agentAnalyses similarIncidents).score =
      round3 (max 0 (min 1
        ((FalsePositiveAnalyzer.BASELINE_FP_RATES.lookup signal.threatType).getD 0.3 +
          0.3 * ((FalsePositiveAnalyzer.fpIndicators signal agentAnalyses
            similarIncidents).map (fun i => i.weight)).sum))) := by
  rw [show FalsePositiveAnalyzer.analyze signal agentAnalyses similarIncidents =
    FalsePositiveAnalyzer.calculateScore signal
      (FalsePositiveAnalyzer.fpIndicators signal agentAnalyses similarIncidents)
      similarIncidents from rfl]
  rw [show (FalsePositiveAnalyzer.calculateScore signal
      (FalsePositiveAnalyzer.fpIndicators signal agentAnalyses similarIncidents)
      similarIncidents).score =
    round3 (max 0 (min 1
      ((FalsePositiveAnalyzer.BASELINE_FP_RATES.lookup signal.threatType).getD 0.3 +
        ((FalsePositiveAnalyzer.fpIndicators signal agentAnalyses
          similarIncidents).map (fun i => i.weight)).sum * 0.3))) from rfl]
  rw [mul_comm ((FalsePositiveAnalyzer.fpIndicators signal agentAnalyses
    similarIncidents).map (fun i => i.weight)).sum 0.3]

/-- Claim C3: for every input, the scorer's verdict has score and
confidence within [0,1], and its recommendation is the deterministic
threshold function of the returned score (at least 0.7 benign, at least
0.4 review, otherwise malicious). -/
theorem fp_verdict_bounds_and_recommendation (signal : ThreatSignal)
    (agentAnalyses : List (String × AgentAnalysis))
    (similarIncidents : List HistoricalIncident) :
    0 ≤ (FalsePositiveAnalyzer.analyze signal agentAnalyses similarIncidents).score ∧
    (FalsePositiveAnalyzer.analyze signal agentAnalyses similarIncidents).score ≤ 1 ∧
    0 ≤ (FalsePositiveAnalyzer.analyze signal agentAnalyses similarIncidents).confidence ∧
    (FalsePositiveAnalyzer.analyze signal agentAnalyses similarIncidents).confidence ≤ 1 ∧
    (FalsePositiveAnalyzer.analyze signal agentAnalyses similarIncidents).recommendation =
      recommendationFromScore
        (FalsePositiveAnalyzer.analyze signal agentAnalyses similarIncidents).score := by
  rw [show FalsePositiveAnalyzer.analyze signal agentAnalyses similarIncidents =
    FalsePositiveAnalyzer.calculateScore signal
      (FalsePositiveAnalyzer.fpIndicators signal agentAnalyses similarIncidents)
      similarIncidents from rfl]
  generalize hI : FalsePositiveAnalyzer.fpIndicators signal agentAnalyses
    similarIncidents = inds
  obtain ⟨m, hm⟩ := sum_weights_int20
    (l := inds) (fun i hi => fpIndicators_weight (hI ▸ hi))
  obtain ⟨n, hn⟩ := baseline_int20 signal.threatType
  have hid := round3_eq_self (clamp_mul1000 ⟨n, hn⟩ ⟨m, hm⟩)
  have hscore : (FalsePositiveAnalyzer.calculateScore signal inds
      similarIncidents).score = round3 (max 0 (min 1
        ((FalsePositiveAnalyzer.BASELINE_FP_RATES.lookup signal.threatType).getD 0.3 +
          ((inds.map (fun i => i.weight)).sum) * 0.3))) := rfl
  have hrec : (FalsePositiveAnalyzer.calculateScore signal inds
      similarIncidents).recommendation = recommendationFromScore (max 0 (min 1
        ((FalsePositiveAnalyzer.BASELINE_FP_RATES.lookup signal.threatType).getD 0.3 +
          ((inds.map (fun i => i.weight)).sum) * 0.3))) := rfl
  have hconf : (FalsePositiveAnalyzer.calculateScore signal inds
      similarIncidents).confidence = round3 (min 1
        ((if inds = [] then
            (if similarIncidents = [] then (0.5 : ℚ)
             else 0.5 + min 0.3 ((similarIncidents.length : ℚ) * 0.05))
          else
            (if similarIncidents = [] then (0.5 : ℚ)
             else 0.5 + min 0.3 ((similarIncidents.length : ℚ) * 0.05)) +
              min 0.2 ((inds.length : ℚ) * 0.04)))) := rfl
  have hF0 : (0 : ℚ) ≤ max 0 (min 1
      ((FalsePositiveAnalyzer.BASELINE_FP_RATES.lookup signal.threatType).getD 0.3 +
        ((inds.map (fun i => i.weight)).sum) * 0.3)) := le_max_left 0 _
  have hF1 : max 0 (min 1
      ((FalsePositiveAnalyzer.BASELINE_FP_RATES.lookup signal.threatType).getD 0.3 +
        ((inds.map (fun i => i.weight)).sum) * 0.3)) ≤ 1 :=
    max_le (by norm_num) (min_le_left 1 _)
  have hmin3 : (0 : ℚ) ≤ min 0.3 ((similarIncidents.length : ℚ) * 0.05) :=
    le_min (by norm_num) (by positivity)
  have hmin2 : (0 : ℚ) ≤ min 0.2 ((inds.length : ℚ) * 0.04) :=
    le_min (by norm_num) (by positivity)
  have hc2 : (0 : ℚ) ≤ (if inds = [] then
      (if similarIncidents = [] then (0.5 : ℚ)
       else 0.5 + min 0.3 ((similarIncidents.length : ℚ) * 0.05))
    else
      (if similarIncidents = [] then (0.5 : ℚ)
       else 0.5 + min 0.3 ((similarIncidents.length : ℚ) * 0.05)) +
        min 0.2 ((inds.length : ℚ) * 0.04)) := by
    split_ifs <;> linarith
  refine ⟨?_, ?_, ?_, ?_, ?_⟩
  · rw [hscore, hid]
    exact hF0
  · rw [hscore, hid]
    exact hF1
  · rw [hconf]
    have h := round3_mono (le_min (by norm_num : (0 : ℚ) ≤ 1) hc2)
    rw [round3_zero] at h
    exact h
  · rw [hconf]
    refine le_trans (round3_mono (min_le_left 1 _)) ?_
    exact round3_one.le
  · rw [hrec, hscore, hid]

/-- The sample bot signal's user agent matches the benign crawler list. -/
theorem sampleBot_ua :
    FalsePositiveAnalyzer.analyzeUserAgent sampleBotSignal = some sampleUaIndicator := rfl

/-- The sample bot signal records no requests, so its rate is zero and
the low-volume indicator fires. -/
theorem sampleBot_volume :
    FalsePositiveAnalyzer.analyzeRequestVolume sampleBotSignal =
      some sampleVolumeIndicator := by
  have hrpm : sampleBotSignal.metadata.requestCount.getD 0 /
      max (sampleBotSignal.metadata.timeWindowMinutes.getD 5) 1 = 0 := by
    rw [show sampleBotSignal.metadata.requestCount = none from rfl,
        show sampleBotSignal.metadata.timeWindowMinutes = none from rfl]
    simp
  simp only [FalsePositiveAnalyzer.analyzeRequestVolume]
  rw [hrpm, if_pos (by norm_num : (0 : ℚ) < 10)]
  rfl

/-- The full indicator list for the sample bot signal. -/
theorem sampleBot_indicators :
    FalsePositiveAnalyzer.fpIndicators sampleBotSignal [] [] =
      [sampleUaIndicator, sampleVolumeIndicator] := by
  simp only [FalsePositiveAnalyzer.fpIndicators]
  rw [sampleBot_ua, sampleBot_volume,
      show FalsePositiveAnalyzer.analyzeIp sampleBotSignal = none from rfl,
      show FalsePositiveAnalyzer.analyzeHistoricalPatterns sampleBotSignal [] = [] from rfl,
      show FalsePositiveAnalyzer.analyzeAgentConfidence [] = none from rfl,
      show FalsePositiveAnalyzer.checkBenignPatterns sampleBotSignal = none from rfl]
  rfl

/-- The resulting trust score for the sample bot signal is 0.53. -/
theorem sampleBot_score :
    (FalsePositiveAnalyzer.analyze sampleBotSignal [] []).score = 53 / 100 := by
  rw [show FalsePositiveAnalyzer.analyze sampleBotSignal [] [] =
    FalsePositiveAnalyzer.calculateScore sampleBotSignal
      (FalsePositiveAnalyzer.fpIndicators sampleBotSignal [] []) [] from rfl]
  rw [show (FalsePositiveAnalyzer.calculateScore sampleBotSignal
      (FalsePositiveAnalyzer.fpIndicators sampleBotSignal [] []) []).score =
    round3 (max 0 (min 1
      ((FalsePositiveAnalyzer.BASELINE_FP_RATES.lookup sampleBotSignal.threatType).getD 0.3 +
        ((FalsePositiveAnalyzer.fpIndicators sampleBotSignal [] []).map
          (fun i => i.weight)).sum * 0.3))) from rfl]
  rw [sampleBot_indicators,
      show (FalsePositiveAnalyzer.BASELINE_FP_RATES.lookup
        sampleBotSignal.threatType).getD 0.3 = 0.35 from rfl]
  have hsum : (([sampleUaIndicator, sampleVolumeIndicator]).map
      (fun i => i.weight)).sum = (3 / 5 : ℚ) := by
    simp only [List.map_cons, List.map_nil, List.sum_cons, List.sum_nil,
      sampleUaIndicator, sampleVolumeIndicator]
    norm_num
  rw [hsum,
      show (0.35 : ℚ) + 3 / 5 * 0.3 = 53 / 100 by norm_num,
      min_eq_right (by norm_num : (53 / 100 : ℚ) ≤ 1),
      max_eq_right (by norm_num : (0 : ℚ) ≤ 53 / 100)]
  exact round3_eq_self ⟨530, by norm_num⟩

/-- Claim C7, counterexample: a bot-traffic event whose metadata holds a
recognized benign crawler user agent and produces no suspicious
(negative-weight) indicator still scores only 0.53, below the claimed
0.6 bound. -/
theorem benign_crawler_score_counterexample :
    sampleBotSignal.threatType = ThreatType.BOT_TRAFFIC ∧
    sampleBotSignal.metadata.userAgent = some "googlebot" ∧
    "googlebot" ∈ FalsePositiveAnalyzer.BENIGN_USER_AGENTS ∧
    (∀ i ∈ FalsePositiveAnalyzer.fpIndicators sampleBotSignal [] [], 0 ≤ i.weight) ∧
    (FalsePositiveAnalyzer.analyze sampleBotSignal [] []).score = 53 / 100 ∧
    ¬((0.6 : ℚ) ≤ (FalsePositiveAnalyzer.analyze sampleBotSignal [] []).score) := by
  refine ⟨rfl, rfl, by decide, ?_, sampleBot_score, ?_⟩
  · intro i hi
    rw [sampleBot_indicators] at hi
    simp only [List.mem_cons, List.not_mem_nil, or_false] at hi
    rcases hi with rfl | rfl
    · norm_num [sampleUaIndicator]
    · norm_num [sampleVolumeIndicator]
  · rw [sampleBot_score]
    norm_num

/-- Claim C7, amended: for every bot-traffic event whose user-agent check
fires the benign-crawler indicator (weight 0.4) and whose inputs produce
no suspicious (negative-weight) indicator, the trust score is at least
0.47 — hence at least 0.4 — and the recommendation is likely-benign or
needs-review, never likely-malicious. -/
theorem benign_crawler_amended (signal : ThreatSignal)
    (agentAnalyses : List (String × AgentAnalysis))
    (similarIncidents : List HistoricalIncident)
    (hbt : signal.threatType = .BOT_TRAFFIC)
    (hua : ∃ i, FalsePositiveAnalyzer.analyzeUserAgent signal = some i ∧ i.weight = 0.4)
    (hpos : ∀ i ∈ FalsePositiveAnalyzer.fpIndicators signal agentAnalyses similarIncidents,
      0 ≤ i.weight) :
    47 / 100 ≤ (FalsePositiveAnalyzer.analyze signal agentAnalyses similarIncidents).score ∧
    ((FalsePositiveAnalyzer.analyze signal agentAnalyses similarIncidents).recommendation =
        "likely_false_positive" ∨
     (FalsePositiveAnalyzer.analyze signal agentAnalyses similarIncidents).recommendation =
        "needs_review") ∧
    (FalsePositiveAnalyzer.analyze signal agentAnalyses similarIncidents).recommendation ≠
      "likely_real_threat" := by
  obtain ⟨i0, hi0, hw0⟩ := hua
  have hmem : i0 ∈ FalsePositiveAnalyzer.fpIndicators signal agentAnalyses
      similarIncidents := by
    simp only [FalsePositiveAnalyzer.fpIndicators, List.mem_append,
      Option.mem_toList, Option.mem_def]
    exact Or.inl (Or.inl (Or.inl (Or.inl (Or.inl hi0))))
  have hW : (0.4 : ℚ) ≤ ((FalsePositiveAnalyzer.fpIndicators signal agentAnalyses
      similarIncidents).map (fun i => i.weight)).sum := by
    have hnn : ∀ x ∈ (FalsePositiveAnalyzer.fpIndicators signal agentAnalyses
        similarIncidents).map (fun i => i.weight), 0 ≤ x := by
      intro x hx
      obtain ⟨j, hj, rfl⟩ := List.mem_map.1 hx
      exact hpos j hj
    have h := List.single_le_sum hnn _ (List.mem_map_of_mem (fun i => i.weight) hmem)
    rw [hw0] at h
    exact h
  have hB : (FalsePositiveAnalyzer.BASELINE_FP_RATES.lookup signal.threatType).getD 0.3 =
      0.35 := by
    rw [hbt]
    rfl
  have hF : (47 / 100 : ℚ) ≤ max 0 (min 1
      ((FalsePositiveAnalyzer.BASELINE_FP_RATES.lookup signal.threatType).getD 0.3 +
        ((FalsePositiveAnalyzer.fpIndicators signal agentAnalyses
          similarIncidents).map (fun i => i.weight)).sum * 0.3)) := by
    refine le_trans (le_min (by norm_num) ?_) (le_max_right 0 _)
    rw [hB]
    have hmul : (0.4 : ℚ) * 0.3 ≤ ((FalsePositiveAnalyzer.fpIndicators signal
        agentAnalyses similarIncidents).map (fun i => i.weight)).sum * 0.3 :=
      mul_le_mul_of_nonneg_right hW (by norm_num)
    linarith
  have hscore : (FalsePositiveAnalyzer.analyze signal agentAnalyses
      similarIncidents).score = round3 (max 0 (min 1
        ((FalsePositiveAnalyzer.BASELINE_FP_RATES.lookup signal.threatType).getD 0.3 +
          ((FalsePositiveAnalyzer.fpIndicators signal agentAnalyses
            similarIncidents).map (fun i => i.weight)).sum * 0.3))) := rfl
  have hrec : (FalsePositiveAnalyzer.analyze signal agentAnalyses
      similarIncidents).recommendation = recommendationFromScore (max 0 (min 1
        ((FalsePositiveAnalyzer.BASELINE_FP_RATES.lookup signal.threatType).getD 0.3 +
          ((FalsePositiveAnalyzer.fpIndicators signal agentAnalyses
            similarIncidents).map (fun i => i.weight)).sum * 0.3))) := rfl
  have hrecd : (FalsePositiveAnalyzer.analyze signal agentAnalyses
      similarIncidents).recommendation = "likely_false_positive" ∨
      (FalsePositiveAnalyzer.analyze signal agentAnalyses
        similarIncidents).recommendation = "needs_review" := by
    rw [hrec]
    by_cases h7 : (0.7 : ℚ) ≤ max 0 (min 1
        ((FalsePositiveAnalyzer.BASELINE_FP_RATES.lookup signal.threatType).getD 0.3 +
          ((FalsePositiveAnalyzer.fpIndicators signal agentAnalyses
            similarIncidents).map (fun i => i.weight)).sum * 0.3))
    · left
      simp only [recommendationFromScore]
      rw [if_pos h7]
    · right
      simp only [recommendationFromScore]
      rw [if_neg h7, if_pos (le_trans (by norm_num : (0.4 : ℚ) ≤ 47 / 100) hF)]
  refine ⟨?_, hrecd, ?_⟩
  · rw [hscore]
    have h := round3_mono hF
    rw [round3_eq_self ⟨470, by norm_num⟩] at h
    exact h
  · rcases hrecd with h | h <;> rw [h] <;> decide

/-- Witness for the amended C7 at a concrete input: the sample benign
crawler event scores 0.53 and is recommended for review. -/
theorem benign_crawler_amended_witness :
    (47 / 100 : ℚ) ≤ (FalsePositiveAnalyzer.analyze sampleBotSignal [] []).score ∧
    ((FalsePositiveAnalyzer.analyze sampleBotSignal [] []).recommendation =
        "likely_false_positive" ∨
     (FalsePositiveAnalyzer.analyze sampleBotSignal [] []).recommendation =
        "needs_review") := by
  have h := benign_crawler_amended sampleBotSignal [] [] rfl
    ⟨sampleUaIndicator, sampleBot_ua, rfl⟩
    (fun i hi => by
      rw [sampleBot_indicators] at hi
      simp only [List.mem_cons, List.not_mem_nil, or_false] at hi
      rcases hi with rfl | rfl
      · norm_num [sampleUaIndicator]
      · norm_num [sampleVolumeIndicator])
  exact ⟨h.1, h.2.1⟩

end SocAgent
